import Mathlib

/-!
Verification development for the Axiom8 conversational orchestrator
(`agentic_rag`): a shallow embedding of the multi-agent conversation state
machine (`app/agent/multi_agent_unified_tracing.py`), the tool gateway
(`app/agent/tools.py` and `app/config/settings.py`), the in-memory session
store (`app/services/session_service.py`) and the boundary API
(`app/api/routes.py`), together with theorems about forced progression,
turn-completion invariants, error normalization, session lifecycle and
transcript shape.

Reasoning backends (`requirements_analyst.run`, `workflow_generator.run`)
are opaque external services; they are modelled as functions
`String → Except String String` (`.ok output` for a normal reply, `.error e`
for a raised exception with message `e`, mirroring the `try/except` blocks
that wrap each `.run` call).
-/

namespace Axiom8

/-- LangChain chat messages as used by the graph state: `HumanMessage` or
`AIMessage`, each carrying a text content. -/
inductive LCMessage where
  | human (content : String)
  | ai (content : String)
deriving Repr, DecidableEq

/-- Content accessor, mirroring `msg.content`. -/
def LCMessage.content : LCMessage → String
  | .human c => c
  | .ai c => c

/-- Mirrors `isinstance(msg, HumanMessage)`. -/
def isHuman : LCMessage → Bool
  | .human _ => true
  | .ai _ => false

/-- `RequirementsState` (pydantic model): structured requirements extracted
by the Requirements Analyst. -/
structure RequirementsState where
  user_query : String
  workflow_purpose : String
  trigger_type : String
  required_nodes : List String
  data_flow : List String
  clarifying_questions : List String := []
  is_complete : Bool
deriving Repr, DecidableEq

/-- `MultiAgentState` (extends LangGraph `MessagesState`): per-turn graph
state. The `messages` field uses the append reducer, so a node returning
`\x7b"messages": [m]\x7d` yields `old.messages ++ [m]`; the other fields are
overwritten when present in a node result and kept otherwise. -/
structure MultiAgentState where
  messages : List LCMessage
  step : String := "analyze_requirements"
  requirements : Option RequirementsState := none
  final_workflow : Option String := none
  error_message : Option String := none
deriving Repr, DecidableEq

/-- Mirrors `msg.content[:200] + "..." if len(msg.content) > 200 else msg.content`. -/
def truncate200 (s : String) : String :=
  if s.length > 200 then s.take 200 ++ "..." else s

/-- The `for i, msg in enumerate(messages[:-1])` loop of
`requirements_analyst_node`: one `"Role: content\n"` line per prior message. -/
def contextLines (msgs : List LCMessage) : String :=
  msgs.foldl
    (fun acc msg =>
      let role := if isHuman msg then "User" else "Assistant"
      acc ++ role ++ ": " ++ truncate200 msg.content ++ "\n")
    ""

/-- The `conversation_context` string composed by `requirements_analyst_node`
before invoking the analyst backend. -/
def buildAnalystContext (user_message_count : Nat) (user_query : String)
    (messages : List LCMessage) : String :=
  "\nCurrent conversation exchange: " ++ toString user_message_count
    ++ "\nLatest user message: " ++ user_query
    ++ "\n\nPrevious conversation context:\n"
    ++ contextLines messages.dropLast
    ++ "\nRemember: If this is exchange 3+ and user has provided substantial details, respond with COMPLETE."

/-- The hard-coded forced completion message of `requirements_analyst_node`. -/
def forcedCompletionMessage : String :=
  "COMPLETE: Create a workflow based on user requirements from the conversation (automatically proceeding after multiple exchanges)"

/-- Python `str.startswith(prefix)`: a character-level prefix test.
(`String.startsWith` is defined by well-founded recursion and does not
reduce definitionally; this structural version evaluates.) -/
def pyStartswith (s p : String) : Bool :=
  p.data.isPrefixOf s.data

/-- The `analysis_result` after the forced-completion override: replaced
by the forced message when there are 4 or more user messages and the
backend output carries no leading completion marker. -/
def analysisResultOf (user_message_count : Nat) (output : String) : String :=
  if user_message_count ≥ 4 && !(pyStartswith output "COMPLETE:") then
    forcedCompletionMessage
  else output

/-- The result dict of the COMPLETE branch of `requirements_analyst_node`:
move to `generate_workflow` with a synthesized complete
`RequirementsState`. -/
def analystCompleteResult (state : MultiAgentState) (user_message_count : Nat)
    (user_query analysis_result : String) : MultiAgentState :=
  let workflow_purpose := (analysis_result.replace "COMPLETE:" "").trim
  let workflow_purpose :=
    if user_message_count ≥ 4 then
      "Workflow based on user conversation: " ++ user_query
    else workflow_purpose
  { state with
      messages := state.messages ++ [LCMessage.ai analysis_result],
      step := "generate_workflow",
      requirements := some
        { user_query := user_query,
          workflow_purpose := workflow_purpose,
          trigger_type := "schedule",
          required_nodes := ["Schedule Trigger", "HTTP Request"],
          data_flow := ["Trigger -> Process -> Output"],
          clarifying_questions := [],
          is_complete := true } }

/-- The result dict of the clarification branch of
`requirements_analyst_node`: stay in `analyze_requirements`. -/
def analystClarifyResult (state : MultiAgentState) (analysis_result : String) :
    MultiAgentState :=
  { state with
      messages := state.messages ++ [LCMessage.ai analysis_result],
      step := "analyze_requirements" }

/-- The result dict of the `except` branch of `requirements_analyst_node`. -/
def analystErrorResult (state : MultiAgentState) (e : String) : MultiAgentState :=
  let error_msg := "Error in requirements analysis: " ++ e
  { state with
      messages := state.messages ++ [.ai error_msg],
      step := "complete",
      error_message := some error_msg }

/-- Branch selection of `requirements_analyst_node` after a successful
backend call: forced-completion override, then the `startswith("COMPLETE:")`
test. -/
def analystDecision (state : MultiAgentState) (user_message_count : Nat)
    (user_query output : String) : MultiAgentState :=
  if pyStartswith (analysisResultOf user_message_count output) "COMPLETE:" then
    analystCompleteResult state user_message_count user_query
      (analysisResultOf user_message_count output)
  else
    analystClarifyResult state (analysisResultOf user_message_count output)

/-- `requirements_analyst_node` from `multi_agent_unified_tracing.py`:
counts user (Human) messages, builds the analyst context, consults the
analyst backend `ab`, forces completion at 4 or more user messages, and
either synthesizes a complete `RequirementsState` and moves to
`generate_workflow`, or stays in `analyze_requirements` with a clarifying
message. Backend exceptions become an error result with step `complete`. -/
def requirements_analyst_node (ab : String → Except String String)
    (state : MultiAgentState) : MultiAgentState :=
  match state.messages with
  | [] =>
      { state with error_message := some "No messages to analyze", step := "complete" }
  | m0 :: rest =>
      let messages := m0 :: rest
      let user_message_count := (messages.filter isHuman).length
      let user_query := (messages.getLastD m0).content
      let conversation_context :=
        buildAnalystContext user_message_count user_query messages
      match ab conversation_context with
      | .error e => analystErrorResult state e
      | .ok output => analystDecision state user_message_count user_query output

/-- The `conversation_history` string composed by `workflow_generator_node`:
one `"Role: content\n"` line per message (no truncation here). -/
def conversationHistoryText (msgs : List LCMessage) : String :=
  msgs.foldl
    (fun acc msg =>
      let role := if isHuman msg then "User" else "Assistant"
      acc ++ role ++ ": " ++ msg.content ++ "\n")
    ""

/-- The `workflow_prompt` f-string of `workflow_generator_node`, built only
from the conversation messages and the requirements snapshot. -/
def buildWorkflowPrompt (messages : List LCMessage) (req : RequirementsState) : String :=
  "\n    Generate a complete n8n workflow based on this conversation with the user:\n    \n    === CONVERSATION HISTORY ===\n    "
    ++ conversationHistoryText messages
    ++ "\n    \n    === REQUIREMENTS SUMMARY ===\n    Purpose: " ++ req.workflow_purpose
    ++ "\n    Original request: " ++ req.user_query
    ++ "\n    \n    === INSTRUCTIONS ===\n    1. Use the RAG tools to find relevant examples and documentation\n    2. Analyze the FULL conversation to understand all user requirements\n    3. Make reasonable assumptions for any missing technical details\n    4. Create a production-ready workflow that addresses all user needs\n    5. Output ONLY the complete n8n workflow JSON\n    \n    Generate the workflow now.\n    "

/-- `workflow_generator_node` from `multi_agent_unified_tracing.py`: requires
a complete `RequirementsState`, composes the generator prompt, consults the
generator backend `gb`, and finishes the turn with either the generated
workflow or an error message. -/
def workflow_generator_node (gb : String → Except String String)
    (state : MultiAgentState) : MultiAgentState :=
  match state.requirements with
  | none =>
      let error_msg := "No complete requirements available for workflow generation."
      { state with
          messages := state.messages ++ [.ai error_msg],
          step := "complete",
          error_message := some error_msg }
  | some req =>
      if !req.is_complete then
        let error_msg := "No complete requirements available for workflow generation."
        { state with
            messages := state.messages ++ [.ai error_msg],
            step := "complete",
            error_message := some error_msg }
      else
        let workflow_prompt := buildWorkflowPrompt state.messages req
        match gb workflow_prompt with
        | .ok workflow_json =>
            { state with
                messages := state.messages
                  ++ [.ai ("Here\x27s your complete n8n workflow:\n\n```json\n"
                        ++ workflow_json ++ "\n```")],
                step := "complete",
                final_workflow := some workflow_json }
        | .error e =>
            let error_msg := "Error generating workflow: " ++ e
            { state with
                messages := state.messages ++ [.ai error_msg],
                step := "complete",
                error_message := some error_msg }

/-- `route_next_step`: conditional-edge router after the analyst node. -/
def route_next_step (state : MultiAgentState) : String :=
  if state.step == "generate_workflow" then "workflow_generator" else "__end__"

/-- One turn of the compiled LangGraph as driven by
`execute_unified_multi_agent_workflow`: START → analyst → (router) →
optional generator → END. The nodes in this model are total, so the
outer `try/except` of the Python wrapper has no extra branch. -/
def execute_unified_multi_agent_workflow (ab gb : String → Except String String)
    (initial : MultiAgentState) : MultiAgentState :=
  let s1 := requirements_analyst_node ab initial
  if route_next_step s1 == "workflow_generator" then
    workflow_generator_node gb s1
  else s1

/-- The fresh per-turn state both boundary handlers construct before running
the graph (`step="analyze_requirements"`, no requirements, no workflow, no
error). -/
def initState (msgs : List LCMessage) : MultiAgentState :=
  { messages := msgs,
    step := "analyze_requirements",
    requirements := none,
    final_workflow := none,
    error_message := none }

/-!
Tool Gateway (`app/agent/tools.py`). The external HTTP backend is modelled
by a `BackendSim`: how long it takes to answer and what it does when it
answers. `client.post(url, json=..., timeout=30.0)` raises
`httpx.TimeoutException` (a subclass of `httpx.RequestError`) when the
backend takes longer than the timeout; a connection failure raises
`httpx.ConnectError` (also a subclass of `httpx.RequestError`);
otherwise a response with a status code and a body is received.
`response.json()` raises `json.JSONDecodeError` when the body is not valid
JSON; this is modelled by a response carrying `none` as its parsed body.
-/

/-- Behavior of the webhook backend when it answers within the timeout. -/
inductive HttpBehavior where
  | connectError (msg : String)
  | response (status : Nat) (jsonBody : Option String) (text : String)
deriving Repr, DecidableEq

/-- One simulated backend call: response latency in seconds plus behavior. -/
structure BackendSim where
  responseTimeSeconds : Nat
  behavior : HttpBehavior
deriving Repr, DecidableEq

/-- Exceptions that can be raised inside the `try` block of
`call_n8n_webhook`. -/
inductive HttpxException where
  | httpStatusError (status : Nat) (text : String)
  | requestError (msg : String)
  | jsonDecodeError (text : String)
deriving Repr, DecidableEq

/-- Outcome of a gateway call as seen by the caller: a returned value, a
returned `ToolError(...).dict()` value, or an exception escaping the
gateway. -/
inductive GatewayOutcome where
  | success (json : String)
  | toolError (error : String)
  | uncaught (excName : String) (text : String)
deriving Repr, DecidableEq

/-- The per-call timeout passed to `client.post(..., timeout=30.0)`. -/
def request_timeout_seconds : Nat := 30

/-- The `client.post` call: timeout, connection failure, or a received
response `(status, parsedJsonBody, text)`. -/
def clientPost (sim : BackendSim) : Except HttpxException (Nat × Option String × String) :=
  if sim.responseTimeSeconds > request_timeout_seconds then
    -- httpx.TimeoutException is a subclass of httpx.RequestError
    .error (.requestError "timed out")
  else
    match sim.behavior with
    | .connectError msg =>
        -- httpx.ConnectError is a subclass of httpx.RequestError
        .error (.requestError msg)
    | .response status jsonBody text => .ok (status, jsonBody, text)

/-- The body of the `try` block of `call_n8n_webhook`: post the request,
`raise_for_status()` (raises `httpx.HTTPStatusError` on any non-2xx
status), then `response.json()` (raises `json.JSONDecodeError` on a
malformed body). -/
def webhookTryBlock (sim : BackendSim) : Except HttpxException String :=
  match clientPost sim with
  | .error exc => .error exc
  | .ok (status, jsonBody, text) =>
      if !(200 ≤ status && status < 300) then
        .error (.httpStatusError status text)
      else
        match jsonBody with
        | some result => .ok result
        | none => .error (.jsonDecodeError text)

/-- `call_n8n_webhook` from `tools.py`: the `except` clauses catch exactly
`httpx.HTTPStatusError` and `httpx.RequestError`, returning
`ToolError(error=...).dict()`; any other exception propagates to the
caller. -/
def call_n8n_webhook (sim : BackendSim) : GatewayOutcome :=
  match webhookTryBlock sim with
  | .ok result => .success result
  | .error (.httpStatusError status text) =>
      .toolError ("HTTP error occurred: " ++ toString status ++ " - " ++ text)
  | .error (.requestError msg) =>
      .toolError ("An error occurred while requesting: " ++ msg)
  | .error (.jsonDecodeError text) =>
      .uncaught "json.JSONDecodeError" text

/-- Recognizer for the `ToolError` outcome. -/
def GatewayOutcome.isToolError : GatewayOutcome → Bool
  | .toolError _ => true
  | _ => false

/-- Recognizer for an exception crossing the gateway boundary. -/
def GatewayOutcome.isUncaught : GatewayOutcome → Bool
  | .uncaught _ _ => true
  | _ => false

/-- Field names of the `Settings` pydantic model in
`app/config/settings.py`. Accessing any other attribute on a `Settings`
instance raises `AttributeError` (the model is configured with
`extra="ignore"`, so no extra attributes exist). -/
def settingsFields : List String :=
  ["api_v1_prefix", "project_name", "debug",
   "anthropic_api_key", "anthropic_model",
   "langchain_tracing_v2", "langchain_api_key", "langchain_project",
   "n8n_core_rag_url", "n8n_management_rag_url",
   "n8n_integrations_rag_url", "n8n_workflows_rag_url",
   "redis_url"]

/-- Result of an attribute access on the `Settings` instance. -/
inductive AttrResult where
  | ok (name : String)
  | attributeError (name : String)
deriving Repr, DecidableEq

/-- Attribute access `settings.<name>`. -/
def settingsGetattr (name : String) : AttrResult :=
  if settingsFields.contains name then .ok name else .attributeError name

/-- Outcome of a search tool call: either the webhook call completed (with
its gateway outcome) or an `AttributeError` was raised while reading the
settings attribute, before any HTTP request was issued. -/
inductive SearchOutcome where
  | completed (result : GatewayOutcome)
  | raisedAttributeError (name : String)
deriving Repr, DecidableEq

/-- `n8n_core_search` from `tools.py`: reads
`settings.n8n_core_search_url`, then calls the webhook. The attribute read
happens before any network I/O. -/
def n8n_core_search (sim : BackendSim) : SearchOutcome :=
  match settingsGetattr "n8n_core_search_url" with
  | .ok _ => .completed (call_n8n_webhook sim)
  | .attributeError n => .raisedAttributeError n

/-!
Session Store (`app/services/session_service.py`). The Python store is a
dict `\x7bsession_id: (timestamp, messages)\x7d`; it is modelled as an
association list with unique keys in insertion order, and `time.time()`
as an explicit `now : Nat` parameter.
-/

/-- A stored chat message dict `\x7b"role", "content", "timestamp"\x7d`.
The routes fill `timestamp` with `str(uuid.uuid4())` (an opaque
placeholder, modelled as the empty string). -/
structure StoredMessage where
  role : String
  content : String
  timestamp : String
deriving Repr, DecidableEq

/-- One store entry: `(timestamp, messages)`. -/
structure SessionEntry where
  ts : Nat
  history : List StoredMessage
deriving Repr, DecidableEq

/-- The store: `\x7bsession_id: (timestamp, messages)\x7d` in insertion
order. -/
abbrev Store := List (String × SessionEntry)

/-- Dict lookup `self._store[session_id]` / membership test. -/
def lookupStore : Store → String → Option SessionEntry
  | [], _ => none
  | p :: rest, sid => if p.1 = sid then some p.2 else lookupStore rest sid

/-- Dict assignment `self._store[session_id] = e` for a key already
present. -/
def updateStore (store : Store) (sid : String) (e : SessionEntry) : Store :=
  store.map (fun p => if p.1 = sid then (sid, e) else p)

/-- `_ttl_seconds = 60 * 60 * 24` (24h). -/
def ttl_seconds : Nat := 60 * 60 * 24

/-- `SessionService.get_history`: on a hit, refresh the timestamp to `now`
and return the history; on a miss, return `[]` leaving the store
untouched. -/
def get_history (now : Nat) (store : Store) (sid : String) :
    List StoredMessage × Store :=
  match lookupStore store sid with
  | some e => (e.history, updateStore store sid { ts := now, history := e.history })
  | none => ([], store)

/-- `SessionService.append_message`: append to an existing session
(refreshing its timestamp) or create the session with a singleton
history. -/
def append_message (now : Nat) (store : Store) (sid : String)
    (message : StoredMessage) : Store :=
  match lookupStore store sid with
  | some e => updateStore store sid { ts := now, history := e.history ++ [message] }
  | none => store ++ [(sid, { ts := now, history := [message] })]

/-- One pass of `_cleanup_loop`: pop every session with
`now - ts > _ttl_seconds`, keep every other entry unchanged. -/
def reap (now : Nat) (store : Store) : Store :=
  store.filter (fun p => !(decide (now - p.2.ts > ttl_seconds)))

/-!
Boundary API (`app/api/routes.py`): the `/chat/start` and `/chat/continue`
handlers. `uuid.uuid4()` session ids are modelled by an explicit `sid`
parameter (freshness, where needed, is an explicit hypothesis).
-/

/-- The `metadata` dict of a `ChatResponse`. Note
`requirements_complete` is computed as `result.get("requirements") is not
None`. -/
structure ChatMetadata where
  requirements_complete : Bool
  workflow_generated : Bool
  error : Option String
deriving Repr, DecidableEq

/-- `ChatResponse` (the assistant `ChatMessage` is represented by its
content). -/
structure ChatResponse where
  session_id : String
  message_content : String
  conversation_complete : Bool
  current_agent : String
  metadata : ChatMetadata
deriving Repr, DecidableEq

/-- A handler result: a response value or a raised `HTTPException`. -/
inductive ApiResult (α : Type) where
  | ok (val : α)
  | httpError (status : Nat) (detail : String)
deriving Repr, DecidableEq

/-- Build the `ChatResponse` from the final graph state, as both handlers
do. -/
def mkChatResponse (sid : String) (content : String)
    (result : MultiAgentState) : ChatResponse :=
  { session_id := sid,
    message_content := content,
    conversation_complete := result.step == "complete",
    current_agent := result.step,
    metadata :=
      { requirements_complete := result.requirements.isSome,
        workflow_generated := result.final_workflow.isSome,
        error := result.error_message } }

/-- `start_chat` (`POST /chat/start`): run the graph on the single user
message, then append the user and assistant turns to the (fresh) session
and build the response. If the graph produced no messages, a 500 is raised
before anything is stored. -/
def start_chat (ab gb : String → Except String String) (sid query : String)
    (now : Nat) (store : Store) : ApiResult ChatResponse × Store :=
  let initial := initState [LCMessage.human query]
  let result := execute_unified_multi_agent_workflow ab gb initial
  match result.messages.getLast? with
  | none => (.httpError 500 "No response from multi-agent system", store)
  | some last =>
      let store1 := append_message now store sid
        { role := "user", content := query, timestamp := "" }
      let store2 := append_message now store1 sid
        { role := "assistant", content := last.content, timestamp := "" }
      (.ok (mkChatResponse sid last.content result), store2)

/-- State reconstruction in `continue_chat`: every stored history entry is
turned into a `HumanMessage` — the assistant branch also produces
`HumanMessage` ("Simplified for now" in the source) — then the new user
message is appended and a fresh turn state is built. -/
def continueState (history : List StoredMessage) (message : String) :
    MultiAgentState :=
  let messages := history.map (fun msg =>
    if msg.role == "user" then LCMessage.human msg.content
    else LCMessage.human msg.content)
  initState (messages ++ [LCMessage.human message])

/-- `continue_chat` (`POST /chat/continue`): 404 on an unknown session
(empty history), otherwise rebuild the turn state, run the graph, append
the user and assistant turns and build the response. -/
def continue_chat (ab gb : String → Except String String) (sid message : String)
    (now : Nat) (store : Store) : ApiResult ChatResponse × Store :=
  let hs := get_history now store sid
  let history := hs.1
  let store1 := hs.2
  if history.isEmpty then
    (.httpError 404 "Session not found", store1)
  else
    let result := execute_unified_multi_agent_workflow ab gb
      (continueState history message)
    match result.messages.getLast? with
    | none => (.httpError 500 "No response from multi-agent system", store1)
    | some last =>
        let store2 := append_message now store1 sid
          { role := "user", content := message, timestamp := "" }
        let store3 := append_message now store2 sid
          { role := "assistant", content := last.content, timestamp := "" }
        (.ok (mkChatResponse sid last.content result), store3)

/-!
Transcript shape: histories written by the boundary handlers come in
`user`/`assistant` pairs. `alternates` checks exactly that, and
`ReachableStore` captures the stores reachable through the boundary
(handlers, history reads and the cleanup loop) from an empty store.
-/

/-- A history strictly alternates roles user, assistant, user, assistant,
…, starting with user and ending with assistant (hence even length). -/
def alternates : List StoredMessage → Bool
  | [] => true
  | [_] => false
  | u :: a :: rest => u.role == "user" && a.role == "assistant" && alternates rest

/-- Every session history in the store alternates and has even length. -/
def StoreAlternates (store : Store) : Bool :=
  store.all (fun p => alternates p.2.history && p.2.history.length % 2 == 0)

/-- Stores reachable through the boundary API from the empty store:
`/chat/start` on a fresh uuid session id, `/chat/continue`, history reads
and the TTL cleanup pass. -/
inductive ReachableStore : Store → Prop where
  | empty : ReachableStore []
  | start (store : Store) (ab gb : String → Except String String)
      (sid query : String) (now : Nat) :
      ReachableStore store → lookupStore store sid = none →
      ReachableStore (start_chat ab gb sid query now store).2
  | next (store : Store) (ab gb : String → Except String String)
      (sid message : String) (now : Nat) :
      ReachableStore store →
      ReachableStore (continue_chat ab gb sid message now store).2
  | readHistory (store : Store) (sid : String) (now : Nat) :
      ReachableStore store → ReachableStore (get_history now store sid).2
  | cleanup (store : Store) (now : Nat) :
      ReachableStore store → ReachableStore (reap now store)

/-! Helper lemmas about the association-list store. -/

theorem lookupStore_none_forall {store : Store} {sid : String}
    (h : lookupStore store sid = none) : ∀ p ∈ store, p.1 ≠ sid := by
  induction store with
  | nil => intro p hp; cases hp
  | cons q rest ih =>
      intro p hp
      simp only [lookupStore] at h
      by_cases hq : q.1 = sid
      · simp [hq] at h
      · rcases List.mem_cons.mp hp with rfl | hmem
        · exact hq
        · exact ih (by simpa [hq] using h) p hmem

theorem lookupStore_some_mem {store : Store} {sid : String} {e : SessionEntry}
    (h : lookupStore store sid = some e) : (sid, e) ∈ store := by
  induction store with
  | nil => simp [lookupStore] at h
  | cons q rest ih =>
      simp only [lookupStore] at h
      by_cases hq : q.1 = sid
      · simp only [hq, if_pos rfl] at h
        obtain rfl : q.2 = e := by simpa using h
        have : q = (sid, q.2) := by
          cases q; simp_all
        rw [← this]; exact List.mem_cons_self q rest
      · exact List.mem_cons_of_mem q (ih (by simpa [hq] using h))

theorem updateStore_id {store : Store} {sid : String} {v : SessionEntry}
    (h : ∀ p ∈ store, p.1 ≠ sid) : updateStore store sid v = store := by
  induction store with
  | nil => rfl
  | cons q rest ih =>
      simp only [updateStore, List.map_cons]
      rw [if_neg (h q (List.mem_cons_self q rest))]
      have := ih (fun p hp => h p (List.mem_cons_of_mem q hp))
      simpa [updateStore] using this

theorem lookupStore_update_self {store : Store} {sid : String}
    {e v : SessionEntry} (h : lookupStore store sid = some e) :
    lookupStore (updateStore store sid v) sid = some v := by
  induction store with
  | nil => simp [lookupStore] at h
  | cons q rest ih =>
      simp only [lookupStore, updateStore, List.map_cons] at h ⊢
      by_cases hq : q.1 = sid
      · simp [hq, lookupStore]
      · rw [if_neg hq]
        simp only [lookupStore, if_neg hq]
        exact ih (by simpa [hq] using h)

theorem updateStore_append (xs ys : Store) (sid : String) (v : SessionEntry) :
    updateStore (xs ++ ys) sid v = updateStore xs sid v ++ updateStore ys sid v := by
  simp [updateStore]

theorem updateStore_updateStore (store : Store) (sid : String)
    (v1 v2 : SessionEntry) :
    updateStore (updateStore store sid v1) sid v2 = updateStore store sid v2 := by
  induction store with
  | nil => rfl
  | cons q rest ih =>
      simp only [updateStore, List.map_cons] at ih ⊢
      by_cases hq : q.1 = sid
      · simp [hq, ih]
      · simp [hq, ih]

theorem lookupStore_append_of_none {xs : Store} {sid : String}
    (h : lookupStore xs sid = none) (ys : Store) :
    lookupStore (xs ++ ys) sid = lookupStore ys sid := by
  induction xs with
  | nil => rfl
  | cons q rest ih =>
      simp only [lookupStore, List.cons_append] at h ⊢
      by_cases hq : q.1 = sid
      · simp [hq] at h
      · rw [if_neg hq] at h ⊢
        exact ih h

/-- Two same-key `append_message` calls on a fresh session create the
session with exactly the two messages. -/
theorem append_two_fresh {store : Store} {sid : String}
    (h : lookupStore store sid = none) (now : Nat) (u a : StoredMessage) :
    append_message now (append_message now store sid u) sid a
      = store ++ [(sid, { ts := now, history := [u, a] })] := by
  have h1 : append_message now store sid u
      = store ++ [(sid, { ts := now, history := [u] })] := by
    simp [append_message, h]
  rw [h1]
  have h2 : lookupStore (store ++ [(sid, ({ ts := now, history := [u] } : SessionEntry))]) sid
      = some { ts := now, history := [u] } := by
    rw [lookupStore_append_of_none h]
    simp [lookupStore]
  simp only [append_message, h2]
  rw [updateStore_append]
  rw [updateStore_id (lookupStore_none_forall h)]
  simp [updateStore]

/-- Two same-key `append_message` calls on an existing session extend its
history by exactly the two messages (and refresh its timestamp). -/
theorem append_two_existing {store : Store} {sid : String} {e : SessionEntry}
    (h : lookupStore store sid = some e) (now : Nat) (u a : StoredMessage) :
    append_message now (append_message now store sid u) sid a
      = updateStore store sid { ts := now, history := e.history ++ [u, a] } := by
  have h1 : append_message now store sid u
      = updateStore store sid { ts := now, history := e.history ++ [u] } := by
    simp [append_message, h]
  rw [h1]
  have h2 := lookupStore_update_self (v := { ts := now, history := e.history ++ [u] }) h
  simp only [append_message, h2]
  rw [updateStore_updateStore]
  simp

theorem alternates_append_pair {u a : StoredMessage}
    (hu : u.role = "user") (ha : a.role = "assistant") :
    ∀ h : List StoredMessage, alternates h = true → alternates (h ++ [u, a]) = true
  | [], _ => by simp [alternates, hu, ha]
  | [x], hx => by simp [alternates] at hx
  | x :: y :: rest, hxy => by
      simp only [alternates, Bool.and_eq_true] at hxy
      simp only [List.cons_append, alternates, Bool.and_eq_true]
      exact ⟨hxy.1, alternates_append_pair hu ha rest hxy.2⟩

theorem alternates_even :
    ∀ h : List StoredMessage, alternates h = true → h.length % 2 = 0
  | [], _ => rfl
  | [x], hx => by simp [alternates] at hx
  | x :: y :: rest, hxy => by
      simp only [alternates, Bool.and_eq_true] at hxy
      have := alternates_even rest hxy.2
      simp only [List.length_cons]
      omega

/-- Entry-wise invariant check used by `StoreAlternates`. -/
def goodEntry (e : SessionEntry) : Bool :=
  alternates e.history && e.history.length % 2 == 0

theorem storeAlternates_iff {store : Store} :
    StoreAlternates store = true ↔ ∀ p ∈ store, goodEntry p.2 = true := by
  simp [StoreAlternates, goodEntry, List.all_eq_true]

theorem goodEntry_of_alternates {e : SessionEntry}
    (h : alternates e.history = true) : goodEntry e = true := by
  simp [goodEntry, h, alternates_even e.history h]

theorem storeAlternates_update {store : Store} {sid : String} {v : SessionEntry}
    (hs : StoreAlternates store = true) (hv : goodEntry v = true) :
    StoreAlternates (updateStore store sid v) = true := by
  rw [storeAlternates_iff] at hs ⊢
  intro p hp
  simp only [updateStore, List.mem_map] at hp
  obtain ⟨q, hq, hqe⟩ := hp
  by_cases h : q.1 = sid
  · rw [if_pos h] at hqe
    rw [← hqe]
    exact hv
  · rw [if_neg h] at hqe
    rw [← hqe]
    exact hs q hq

theorem storeAlternates_append {xs ys : Store} :
    StoreAlternates (xs ++ ys) = (StoreAlternates xs && StoreAlternates ys) := by
  simp [StoreAlternates, List.all_append]

theorem goodEntry_of_lookup {store : Store} {sid : String} {e : SessionEntry}
    (hs : StoreAlternates store = true) (h : lookupStore store sid = some e) :
    goodEntry e = true :=
  storeAlternates_iff.mp hs (sid, e) (lookupStore_some_mem h)

/-! Characterization of the analyst and generator node outcomes. -/

/-- The branch selection after a successful analyst backend call lands in
exactly one of the two result shapes. -/
theorem analystDecision_cases (state : MultiAgentState) (count : Nat)
    (uq output : String) :
    analystDecision state count uq output
        = analystCompleteResult state count uq (analysisResultOf count output)
    ∨ analystDecision state count uq output
        = analystClarifyResult state (analysisResultOf count output) := by
  unfold analystDecision
  split
  · exact Or.inl rfl
  · exact Or.inr rfl

/-- Every run of `requirements_analyst_node` on a fresh turn state ends in
one of three shapes: an error turn (`step="complete"`, error set, no
workflow), a clarification turn (`step="analyze_requirements"`, nothing
set), or a completed analysis (`step="generate_workflow"`, requirements
synthesized with `is_complete = true`). -/
theorem analyst_node_outcomes (ab : String → Except String String)
    (msgs : List LCMessage) :
    ((requirements_analyst_node ab (initState msgs)).step = "complete"
      ∧ (requirements_analyst_node ab (initState msgs)).final_workflow = none
      ∧ (requirements_analyst_node ab (initState msgs)).error_message.isSome = true)
    ∨ ((requirements_analyst_node ab (initState msgs)).step = "analyze_requirements"
      ∧ (requirements_analyst_node ab (initState msgs)).final_workflow = none
      ∧ (requirements_analyst_node ab (initState msgs)).error_message = none
      ∧ (requirements_analyst_node ab (initState msgs)).requirements = none)
    ∨ ((requirements_analyst_node ab (initState msgs)).step = "generate_workflow"
      ∧ (requirements_analyst_node ab (initState msgs)).final_workflow = none
      ∧ (requirements_analyst_node ab (initState msgs)).error_message = none
      ∧ ∃ r, (requirements_analyst_node ab (initState msgs)).requirements = some r
           ∧ r.is_complete = true) := by
  cases msgs with
  | nil =>
      left
      exact ⟨rfl, rfl, rfl⟩
  | cons m0 rest =>
      have hnode : requirements_analyst_node ab (initState (m0 :: rest))
          = match ab (buildAnalystContext (((m0 :: rest).filter isHuman).length)
              (((m0 :: rest).getLastD m0).content) (m0 :: rest)) with
            | .error e => analystErrorResult (initState (m0 :: rest)) e
            | .ok output =>
                analystDecision (initState (m0 :: rest))
                  (((m0 :: rest).filter isHuman).length)
                  (((m0 :: rest).getLastD m0).content) output := rfl
      cases hab : ab (buildAnalystContext (((m0 :: rest).filter isHuman).length)
          (((m0 :: rest).getLastD m0).content) (m0 :: rest)) with
      | error e =>
          simp only [hab] at hnode
          rw [hnode]; left; exact ⟨rfl, rfl, rfl⟩
      | ok output =>
          simp only [hab] at hnode
          rw [hnode]
          rcases analystDecision_cases (initState (m0 :: rest))
              (((m0 :: rest).filter isHuman).length)
              (((m0 :: rest).getLastD m0).content) output with hd | hd <;> rw [hd]
          · right; right
            exact ⟨rfl, rfl, rfl, _, rfl, rfl⟩
          · right; left
            exact ⟨rfl, rfl, rfl, rfl⟩

/-- On a state with a complete requirements snapshot and no workflow or
error yet, `workflow_generator_node` always finishes the turn: either a
workflow is produced (and no error), or an error is recorded (and no
workflow). -/
theorem generator_node_outcome (gb : String → Except String String)
    (s : MultiAgentState) (r : RequirementsState)
    (hreq : s.requirements = some r) (hc : r.is_complete = true)
    (hw : s.final_workflow = none) (he : s.error_message = none) :
    (workflow_generator_node gb s).step = "complete"
    ∧ (((workflow_generator_node gb s).final_workflow.isSome = true
          ∧ (workflow_generator_node gb s).error_message = none)
       ∨ ((workflow_generator_node gb s).final_workflow = none
          ∧ (workflow_generator_node gb s).error_message.isSome = true)) := by
  simp only [workflow_generator_node, hreq, hc, Bool.not_true, Bool.false_eq_true,
    if_false]
  cases hgb : gb (buildWorkflowPrompt s.messages r) with
  | ok wf => simp [he]
  | error e => simp [hw]

/-- C2: for every completed turn (any transcript, any backends), the
final state has `step = "complete"` iff the artifact (`final_workflow`) or
the error (`error_message`) is set; when the artifact is set no error is
set; and whenever the state enters the Generating stage (the analyst
routes to `workflow_generator`), the attached requirements snapshot has
`is_complete = true`. -/
theorem turn_completion_invariant (ab gb : String → Except String String)
    (msgs : List LCMessage) :
    ((execute_unified_multi_agent_workflow ab gb (initState msgs)).step = "complete"
       ↔ ((execute_unified_multi_agent_workflow ab gb (initState msgs)).final_workflow.isSome = true
          ∨ (execute_unified_multi_agent_workflow ab gb (initState msgs)).error_message.isSome = true))
  ∧ ((execute_unified_multi_agent_workflow ab gb (initState msgs)).final_workflow.isSome = true
       → (execute_unified_multi_agent_workflow ab gb (initState msgs)).error_message = none)
  ∧ ((requirements_analyst_node ab (initState msgs)).step = "generate_workflow"
       → ∃ r, (requirements_analyst_node ab (initState msgs)).requirements = some r
            ∧ r.is_complete = true) := by
  have hexec : execute_unified_multi_agent_workflow ab gb (initState msgs)
      = (if route_next_step (requirements_analyst_node ab (initState msgs))
            == "workflow_generator" then
           workflow_generator_node gb (requirements_analyst_node ab (initState msgs))
         else requirements_analyst_node ab (initState msgs)) := rfl
  rcases analyst_node_outcomes ab msgs with
    ⟨hstep, hw, he⟩ | ⟨hstep, hw, he, _⟩ | ⟨hstep, hw, he, r, hr, hc⟩
  · have hroute : route_next_step (requirements_analyst_node ab (initState msgs))
        = "__end__" := by simp [route_next_step, hstep]
    rw [hexec, hroute]
    simp only [show (("__end__" : String) == "workflow_generator") = false from by decide,
      Bool.false_eq_true, if_false]
    refine ⟨?_, ?_, ?_⟩
    · simp [hstep, he]
    · intro hws; rw [hw] at hws; simp at hws
    · intro hg; rw [hstep] at hg; simp at hg
  · have hroute : route_next_step (requirements_analyst_node ab (initState msgs))
        = "__end__" := by simp [route_next_step, hstep]
    rw [hexec, hroute]
    simp only [show (("__end__" : String) == "workflow_generator") = false from by decide,
      Bool.false_eq_true, if_false]
    refine ⟨?_, ?_, ?_⟩
    · simp [hstep, hw, he]
    · intro hws; rw [hw] at hws; simp at hws
    · intro hg; rw [hstep] at hg; simp at hg
  · have hroute : route_next_step (requirements_analyst_node ab (initState msgs))
        = "workflow_generator" := by simp [route_next_step, hstep]
    rw [hexec, hroute]
    simp only [show (("workflow_generator" : String) == "workflow_generator") = true from by decide,
      if_true]
    obtain ⟨hgstep, hgout⟩ := generator_node_outcome gb _ r hr hc hw he
    refine ⟨?_, ?_, fun _ => ⟨r, hr, hc⟩⟩
    · rcases hgout with ⟨hws, _⟩ | ⟨_, hes⟩
      · simp [hgstep, hws]
      · simp [hgstep, hes]
    · intro hws
      rcases hgout with ⟨_, hen⟩ | ⟨hwn, _⟩
      · exact hen
      · rw [hwn] at hws; simp at hws

/-!
Claim theorems for the tool gateway, the session store and the boundary
API.
-/

/-- C3 counterexample: a 2xx backend response with a malformed (non-JSON)
body makes `call_n8n_webhook` raise an uncaught `json.JSONDecodeError`
that crosses the gateway boundary — the claim that every failure mode is
normalized to a `ToolError` and that no exception ever crosses the
boundary is false at this input. -/
theorem gateway_malformed_body_escapes :
    call_n8n_webhook ⟨0, .response 200 none "not json"⟩
      = .uncaught "json.JSONDecodeError" "not json" := by
  rfl

/-- C3 (amended): connection failures, timeouts and non-2xx statuses are
normalized into a structured `ToolError` value, and a well-formed 2xx
response is returned as a value; but a 2xx response with a malformed body
raises an uncaught `json.JSONDecodeError` that crosses the gateway
boundary (the `except` clauses catch only `httpx.HTTPStatusError` and
`httpx.RequestError`). -/
theorem gateway_transport_errors_normalized :
    (∀ rt msg, (call_n8n_webhook ⟨rt, .connectError msg⟩).isToolError = true)
  ∧ (∀ sim : BackendSim, sim.responseTimeSeconds > request_timeout_seconds →
      (call_n8n_webhook sim).isToolError = true)
  ∧ (∀ rt st j text, rt ≤ request_timeout_seconds → ¬(200 ≤ st ∧ st < 300) →
      (call_n8n_webhook ⟨rt, .response st j text⟩).isToolError = true)
  ∧ (∀ rt st v text, rt ≤ request_timeout_seconds → 200 ≤ st → st < 300 →
      call_n8n_webhook ⟨rt, .response st (some v) text⟩ = .success v)
  ∧ (∀ rt st text, rt ≤ request_timeout_seconds → 200 ≤ st → st < 300 →
      call_n8n_webhook ⟨rt, .response st none text⟩
        = .uncaught "json.JSONDecodeError" text) := by
  refine ⟨?_, ?_, ?_, ?_, ?_⟩
  · intro rt msg
    by_cases hrt : rt > request_timeout_seconds
    · simp [call_n8n_webhook, webhookTryBlock, clientPost, hrt,
        GatewayOutcome.isToolError]
    · simp [call_n8n_webhook, webhookTryBlock, clientPost, hrt,
        GatewayOutcome.isToolError]
  · intro sim h
    simp [call_n8n_webhook, webhookTryBlock, clientPost, h,
      GatewayOutcome.isToolError]
  · intro rt st j text hrt hst
    have h1 : clientPost ⟨rt, .response st j text⟩ = .ok (st, j, text) := by
      have hn : ¬ (rt > request_timeout_seconds) := by omega
      simp [clientPost, hn]
    have h2 : (200 ≤ st && st < 300) = false := by
      rcases Nat.lt_or_ge st 200 with h | h
      · simp [Nat.not_le.mpr h]
      · have hn : ¬ st < 300 := fun hlt => hst ⟨h, hlt⟩
        simp [hn]
    simp [call_n8n_webhook, webhookTryBlock, h1, h2, GatewayOutcome.isToolError]
  · intro rt st v text hrt h2 h3
    have h1 : clientPost ⟨rt, .response st (some v) text⟩ = .ok (st, some v, text) := by
      have hn : ¬ (rt > request_timeout_seconds) := by omega
      simp [clientPost, hn]
    have hb : (200 ≤ st && st < 300) = true := by simp [h2, h3]
    simp [call_n8n_webhook, webhookTryBlock, h1, hb]
  · intro rt st text hrt h2 h3
    have h1 : clientPost ⟨rt, .response st none text⟩ = .ok (st, none, text) := by
      have hn : ¬ (rt > request_timeout_seconds) := by omega
      simp [clientPost, hn]
    have hb : (200 ≤ st && st < 300) = true := by simp [h2, h3]
    simp [call_n8n_webhook, webhookTryBlock, h1, hb]

/-- Witness for the amended C3 theorem at concrete inputs. -/
theorem gateway_transport_errors_normalized_witness :
    (call_n8n_webhook ⟨0, .connectError "connection refused"⟩).isToolError = true
  ∧ (call_n8n_webhook ⟨31, .response 200 (some "ok") "ok"⟩).isToolError = true
  ∧ (call_n8n_webhook ⟨0, .response 500 (some "err") "err"⟩).isToolError = true
  ∧ call_n8n_webhook ⟨0, .response 200 (some "ok") "ok"⟩ = .success "ok"
  ∧ call_n8n_webhook ⟨0, .response 204 none ""⟩
      = .uncaught "json.JSONDecodeError" "" := by
  obtain ⟨hc, ht, hs, hok, hj⟩ := gateway_transport_errors_normalized
  exact ⟨hc 0 "connection refused",
         ht ⟨31, .response 200 (some "ok") "ok"⟩ (by decide),
         hs 0 500 (some "err") "err" (by decide) (by decide),
         hok 0 200 "ok" "ok" (by decide) (by decide) (by decide),
         hj 0 204 "" (by decide) (by decide) (by decide)⟩

/-- C4: every call to `n8n_core_search` reads
`settings.n8n_core_search_url`, an attribute the `Settings` model does not
define (it defines `n8n_core_rag_url`), so the call raises an untyped
`AttributeError` before any HTTP request is issued — it never reaches
`call_n8n_webhook` and never returns the `ToolError` the spec promises. -/
theorem core_search_raises_attribute_error (sim : BackendSim) :
    n8n_core_search sim = .raisedAttributeError "n8n_core_search_url" := by
  rfl

/-- C7: the per-call timeout constant is 30 seconds, and a backend
exceeding it makes `call_n8n_webhook` return a `ToolError` value to the
calling stage (no exception escapes), so a timed-out tool call degrades
instead of failing the stage. -/
theorem gateway_timeout_policy :
    request_timeout_seconds = 30
  ∧ ∀ sim : BackendSim, sim.responseTimeSeconds > request_timeout_seconds →
      (call_n8n_webhook sim).isToolError = true
      ∧ (call_n8n_webhook sim).isUncaught = false := by
  refine ⟨rfl, fun sim h => ?_⟩
  constructor <;>
    simp [call_n8n_webhook, webhookTryBlock, clientPost, h,
      GatewayOutcome.isToolError, GatewayOutcome.isUncaught]

/-- Witness for the C7 theorem at a concrete 31-second backend. -/
theorem gateway_timeout_policy_witness :
    request_timeout_seconds = 30
  ∧ (call_n8n_webhook ⟨31, .response 200 (some "ok") "ok"⟩).isToolError = true
  ∧ (call_n8n_webhook ⟨31, .response 200 (some "ok") "ok"⟩).isUncaught = false := by
  obtain ⟨h30, hto⟩ := gateway_timeout_policy
  obtain ⟨h1, h2⟩ := hto ⟨31, .response 200 (some "ok") "ok"⟩ (by decide)
  exact ⟨h30, h1, h2⟩

/-- C5: `continue_chat` on an unknown session id raises a 404
`HTTPException` and leaves the session store unchanged — in particular no
session is created by the failed call. -/
theorem continue_unknown_session_404 (ab gb : String → Except String String)
    (sid message : String) (now : Nat) (store : Store)
    (h : lookupStore store sid = none) :
    continue_chat ab gb sid message now store
      = (.httpError 404 "Session not found", store) := by
  simp [continue_chat, get_history, h]

/-- Witness for the C5 theorem on the empty store. -/
theorem continue_unknown_session_404_witness :
    continue_chat (fun _ => Except.ok "ok") (fun _ => Except.ok "ok")
        "missing" "hi" 0 []
      = (.httpError 404 "Session not found", []) :=
  continue_unknown_session_404 (fun _ => Except.ok "ok")
    (fun _ => Except.ok "ok") "missing" "hi" 0 [] rfl

/-- C9: the session TTL is 24 hours; a `get_history` hit and an
`append_message` both refresh the session's last-touched timestamp to
`now` (creating the session on a fresh append); and one cleanup pass
removes exactly the sessions with `now - ts > ttl` while keeping every
other entry unchanged. -/
theorem session_lifecycle :
    ttl_seconds = 24 * 60 * 60
  ∧ (∀ now store sid e, lookupStore store sid = some e →
        (get_history now store sid).1 = e.history
      ∧ lookupStore (get_history now store sid).2 sid
          = some { ts := now, history := e.history })
  ∧ (∀ now store sid e m, lookupStore store sid = some e →
        lookupStore (append_message now store sid m) sid
          = some { ts := now, history := e.history ++ [m] })
  ∧ (∀ now store sid m, lookupStore store sid = none →
        lookupStore (append_message now store sid m) sid
          = some { ts := now, history := [m] })
  ∧ (∀ now store (p : String × SessionEntry),
        p ∈ reap now store ↔ p ∈ store ∧ now - p.2.ts ≤ ttl_seconds) := by
  refine ⟨by norm_num [ttl_seconds], ?_, ?_, ?_, ?_⟩
  · intro now store sid e h
    refine ⟨by simp [get_history, h], ?_⟩
    simp only [get_history, h]
    exact lookupStore_update_self h
  · intro now store sid e m h
    simp only [append_message, h]
    exact lookupStore_update_self h
  · intro now store sid m h
    simp only [append_message, h]
    rw [lookupStore_append_of_none h]
    simp [lookupStore]
  · intro now store p
    simp only [reap, List.mem_filter, Bool.not_eq_true', decide_eq_false_iff_not]
    exact and_congr_right fun _ => by omega

/-- Witness for the C9 theorem on a concrete one-session store. -/
theorem session_lifecycle_witness :
    (get_history 7 [("a", ⟨5, [⟨"user", "x", ""⟩]⟩)] "a").1 = [⟨"user", "x", ""⟩]
  ∧ lookupStore (append_message 9 [("a", ⟨5, [⟨"user", "x", ""⟩]⟩)] "a"
        ⟨"assistant", "y", ""⟩) "a"
      = some ⟨9, [⟨"user", "x", ""⟩, ⟨"assistant", "y", ""⟩]⟩
  ∧ ¬ (("a", (⟨5, []⟩ : SessionEntry)) ∈ reap 90000 [("a", ⟨5, []⟩)]) := by
  obtain ⟨_, hget, happ, _, hreap⟩ := session_lifecycle
  refine ⟨(hget 7 [("a", ⟨5, [⟨"user", "x", ""⟩]⟩)] "a" ⟨5, [⟨"user", "x", ""⟩]⟩
      (by simp [lookupStore])).1,
    happ 9 [("a", ⟨5, [⟨"user", "x", ""⟩]⟩)] "a" ⟨5, [⟨"user", "x", ""⟩]⟩
      ⟨"assistant", "y", ""⟩ (by simp [lookupStore]), ?_⟩
  intro hmem
  have h2 := ((hreap 90000 _ _).mp hmem).2
  simp [ttl_seconds] at h2

/-- C8: the Generation stage is deterministic in its inputs: the prompt it
composes depends only on the conversation messages and the requirements
snapshot (no other state field and no hidden context), and with the same
deterministic backend any two states agreeing on those inputs (with a
complete snapshot) yield the same artifact. -/
theorem generation_idempotent (gb : String → Except String String)
    (s1 s2 : MultiAgentState) (r : RequirementsState)
    (hm : s1.messages = s2.messages)
    (h1 : s1.requirements = some r) (h2 : s2.requirements = some r)
    (hc : r.is_complete = true) :
    buildWorkflowPrompt s1.messages r = buildWorkflowPrompt s2.messages r
  ∧ ∀ wf, gb (buildWorkflowPrompt s1.messages r) = .ok wf →
      (workflow_generator_node gb s1).final_workflow = some wf
    ∧ (workflow_generator_node gb s2).final_workflow = some wf := by
  constructor
  · rw [hm]
  · intro wf hwf
    constructor
    · simp only [workflow_generator_node, h1, hc, Bool.not_true,
        Bool.false_eq_true, if_false, hwf]
    · simp only [workflow_generator_node, h2, hc, Bool.not_true,
        Bool.false_eq_true, if_false]
      rw [← hm, hwf]

/-- The two states used by the C8 witness: they agree on messages and
requirements but differ on every other field. -/
def demoReq : RequirementsState :=
  { user_query := "build it",
    workflow_purpose := "demo",
    trigger_type := "schedule",
    required_nodes := ["Schedule Trigger", "HTTP Request"],
    data_flow := ["Trigger -> Process -> Output"],
    clarifying_questions := [],
    is_complete := true }

/-- First witness state for C8. -/
def demoState1 : MultiAgentState :=
  { messages := [LCMessage.human "build it"],
    step := "generate_workflow",
    requirements := some demoReq,
    final_workflow := none,
    error_message := none }

/-- Second witness state for C8: same messages and requirements, different
step, workflow and error fields. -/
def demoState2 : MultiAgentState :=
  { messages := [LCMessage.human "build it"],
    step := "complete",
    requirements := some demoReq,
    final_workflow := some "stale",
    error_message := some "stale error" }

/-- Witness for the C8 theorem with a deterministic stub backend. -/
theorem generation_idempotent_witness :
    (workflow_generator_node (fun _ => Except.ok "WF-JSON") demoState1).final_workflow
      = some "WF-JSON"
  ∧ (workflow_generator_node (fun _ => Except.ok "WF-JSON") demoState2).final_workflow
      = some "WF-JSON" :=
  (generation_idempotent (fun _ => Except.ok "WF-JSON") demoState1 demoState2
    demoReq rfl rfl rfl rfl).2 "WF-JSON" rfl

/-! Message-shape lemmas: each node appends exactly one assistant message. -/

theorem analystDecision_messages (state : MultiAgentState) (count : Nat)
    (uq output : String) :
    ∃ m, (analystDecision state count uq output).messages
      = state.messages ++ [m] := by
  rcases analystDecision_cases state count uq output with h | h <;> rw [h]
  · exact ⟨_, rfl⟩
  · exact ⟨_, rfl⟩

theorem analyst_node_messages (ab : String → Except String String)
    (m0 : LCMessage) (rest : List LCMessage) :
    ∃ m, (requirements_analyst_node ab (initState (m0 :: rest))).messages
      = (m0 :: rest) ++ [m] := by
  have hnode : requirements_analyst_node ab (initState (m0 :: rest))
      = match ab (buildAnalystContext (((m0 :: rest).filter isHuman).length)
          (((m0 :: rest).getLastD m0).content) (m0 :: rest)) with
        | .error e => analystErrorResult (initState (m0 :: rest)) e
        | .ok output =>
            analystDecision (initState (m0 :: rest))
              (((m0 :: rest).filter isHuman).length)
              (((m0 :: rest).getLastD m0).content) output := rfl
  cases hab : ab (buildAnalystContext (((m0 :: rest).filter isHuman).length)
      (((m0 :: rest).getLastD m0).content) (m0 :: rest)) with
  | error e =>
      simp only [hab] at hnode
      rw [hnode]
      exact ⟨_, rfl⟩
  | ok output =>
      simp only [hab] at hnode
      rw [hnode]
      exact analystDecision_messages (initState (m0 :: rest)) _ _ output

theorem generator_node_messages (gb : String → Except String String)
    (state : MultiAgentState) :
    ∃ m, (workflow_generator_node gb state).messages
      = state.messages ++ [m] := by
  cases hr : state.requirements with
  | none =>
      simp only [workflow_generator_node, hr]
      exact ⟨_, rfl⟩
  | some req =>
      cases hc : req.is_complete with
      | true =>
          simp only [workflow_generator_node, hr, hc, Bool.not_true,
            Bool.false_eq_true, if_false]
          cases hgb : gb (buildWorkflowPrompt state.messages req) with
          | ok wf => exact ⟨_, rfl⟩
          | error e => exact ⟨_, rfl⟩
      | false =>
          simp only [workflow_generator_node, hr, hc, Bool.not_false, if_true]
          exact ⟨_, rfl⟩

/-- A turn executed on a non-empty message list always ends with a last
(assistant) message. -/
theorem exec_getLast_isSome (ab gb : String → Except String String)
    (m0 : LCMessage) (rest : List LCMessage) :
    ∃ last, (execute_unified_multi_agent_workflow ab gb
        (initState (m0 :: rest))).messages.getLast? = some last := by
  obtain ⟨m1, hm1⟩ := analyst_node_messages ab m0 rest
  unfold execute_unified_multi_agent_workflow
  by_cases hr : (route_next_step (requirements_analyst_node ab (initState (m0 :: rest)))
      == "workflow_generator") = true
  · rw [if_pos hr]
    obtain ⟨m2, hm2⟩ := generator_node_messages gb
      (requirements_analyst_node ab (initState (m0 :: rest)))
    exact ⟨m2, by rw [hm2, List.getLast?_concat]⟩
  · rw [if_neg hr]
    exact ⟨m1, by rw [hm1, List.getLast?_concat]⟩

/-- C6: immediately after a successful `start_chat` with query X on a
fresh session id, `get_history` returns exactly two turns in insertion
order: the user turn with content X, then the assistant turn. -/
theorem history_after_start (ab gb : String → Except String String)
    (sid query : String) (t1 t2 : Nat) (store : Store)
    (hfresh : lookupStore store sid = none) :
    ∃ c, (get_history t2 (start_chat ab gb sid query t1 store).2 sid).1
      = [⟨"user", query, ""⟩, ⟨"assistant", c, ""⟩] := by
  obtain ⟨last, hlast⟩ := exec_getLast_isSome ab gb (LCMessage.human query) []
  refine ⟨last.content, ?_⟩
  unfold start_chat
  simp only [hlast]
  rw [append_two_fresh hfresh]
  simp only [get_history]
  rw [lookupStore_append_of_none hfresh]
  simp [lookupStore]

/-- Witness for the C6 theorem on the empty store with stub backends. -/
theorem history_after_start_witness :
    ∃ c, (get_history 1 (start_chat (fun _ => Except.ok "QUESTIONS: which sheet?")
        (fun _ => Except.ok "\x7b\x7d") "sid-1" "track my sheet" 0 []).2 "sid-1").1
      = [⟨"user", "track my sheet", ""⟩, ⟨"assistant", c, ""⟩] :=
  history_after_start (fun _ => Except.ok "QUESTIONS: which sheet?")
    (fun _ => Except.ok "\x7b\x7d") "sid-1" "track my sheet" 0 1 [] rfl

/-! Forced-progression machinery (C1). -/

theorem analystDecision_clarify (state : MultiAgentState) (count : Nat)
    (uq output : String) (hout : pyStartswith output "COMPLETE:" = false)
    (hcount : count < 4) :
    analystDecision state count uq output = analystClarifyResult state output := by
  have hge : ¬ (count ≥ 4) := by omega
  have h1 : analysisResultOf count output = output := by
    simp [analysisResultOf, hge]
  unfold analystDecision
  rw [h1, hout]
  simp

theorem forcedCompletionMessage_marker :
    pyStartswith forcedCompletionMessage "COMPLETE:" = true := by
  decide

theorem analystDecision_forced (state : MultiAgentState) (count : Nat)
    (uq output : String) (hout : pyStartswith output "COMPLETE:" = false)
    (hcount : count ≥ 4) :
    analystDecision state count uq output
      = analystCompleteResult state count uq forcedCompletionMessage := by
  have h1 : analysisResultOf count output = forcedCompletionMessage := by
    simp [analysisResultOf, hcount, hout]
  unfold analystDecision
  rw [h1, forcedCompletionMessage_marker]
  simp

/-- Definitional unfolding of the analyst node on a fresh turn state with a
non-empty message list. -/
theorem analyst_node_unfold (ab : String → Except String String)
    (m0 : LCMessage) (rest : List LCMessage) :
    requirements_analyst_node ab (initState (m0 :: rest))
      = match ab (buildAnalystContext (((m0 :: rest).filter isHuman).length)
          (((m0 :: rest).getLastD m0).content) (m0 :: rest)) with
        | .error e => analystErrorResult (initState (m0 :: rest)) e
        | .ok output =>
            analystDecision (initState (m0 :: rest))
              (((m0 :: rest).filter isHuman).length)
              (((m0 :: rest).getLastD m0).content) output := rfl

/-- With a backend that never emits the completion marker and fewer than 4
user messages, the analyst node ends in a clarification. -/
theorem analyst_node_clarifies (ab : String → String)
    (hab : ∀ s, pyStartswith (ab s) "COMPLETE:" = false)
    (m0 : LCMessage) (rest : List LCMessage)
    (hcount : ((m0 :: rest).filter isHuman).length < 4) :
    requirements_analyst_node (fun s => Except.ok (ab s)) (initState (m0 :: rest))
      = analystClarifyResult (initState (m0 :: rest))
          (ab (buildAnalystContext (((m0 :: rest).filter isHuman).length)
            (((m0 :: rest).getLastD m0).content) (m0 :: rest))) := by
  rw [analyst_node_unfold]
  exact analystDecision_clarify _ _ _ _ (hab _) hcount

/-- With a backend that never emits the completion marker and 4 or more
user messages, the analyst node overrides the stage judgment and forces
completion. -/
theorem analyst_node_forces (ab : String → String)
    (hab : ∀ s, pyStartswith (ab s) "COMPLETE:" = false)
    (m0 : LCMessage) (rest : List LCMessage)
    (hcount : ((m0 :: rest).filter isHuman).length ≥ 4) :
    requirements_analyst_node (fun s => Except.ok (ab s)) (initState (m0 :: rest))
      = analystCompleteResult (initState (m0 :: rest))
          (((m0 :: rest).filter isHuman).length)
          (((m0 :: rest).getLastD m0).content) forcedCompletionMessage := by
  rw [analyst_node_unfold]
  exact analystDecision_forced _ _ _ _ (hab _) hcount

/-- Zeta-reduced unfolding of one graph turn. -/
theorem exec_unfold (ab gb : String → Except String String)
    (st : MultiAgentState) :
    execute_unified_multi_agent_workflow ab gb st
      = if (route_next_step (requirements_analyst_node ab st)
            == "workflow_generator") = true then
          workflow_generator_node gb (requirements_analyst_node ab st)
        else requirements_analyst_node ab st := rfl

/-- When the analyst ends in a clarification the router stops the turn
there: the generator never runs. -/
theorem exec_of_clarify (ab gb : String → Except String String)
    (msgs : List LCMessage) (c : String)
    (h : requirements_analyst_node ab (initState msgs)
      = analystClarifyResult (initState msgs) c) :
    execute_unified_multi_agent_workflow ab gb (initState msgs)
      = analystClarifyResult (initState msgs) c := by
  rw [exec_unfold, h]
  have hr : route_next_step (analystClarifyResult (initState msgs) c)
      = "__end__" := by
    simp [route_next_step, analystClarifyResult]
  rw [hr]
  simp

/-- Zeta-reduced unfolding of the `start_chat` handler. -/
theorem start_chat_unfold (ab gb : String → Except String String)
    (sid q : String) (t1 : Nat) (store : Store) :
    start_chat ab gb sid q t1 store
      = match (execute_unified_multi_agent_workflow ab gb
            (initState [LCMessage.human q])).messages.getLast? with
        | none => (.httpError 500 "No response from multi-agent system", store)
        | some last =>
            (.ok (mkChatResponse sid last.content
               (execute_unified_multi_agent_workflow ab gb
                 (initState [LCMessage.human q]))),
             append_message t1 (append_message t1 store sid
               ⟨"user", q, ""⟩) sid ⟨"assistant", last.content, ""⟩) := rfl

/-- Unfolding of `start_chat` when the executed turn and its last message
are known. -/
theorem start_chat_run (ab gb : String → Except String String)
    (sid q : String) (t1 : Nat) (store : Store) (res : MultiAgentState)
    (last : LCMessage)
    (hres : execute_unified_multi_agent_workflow ab gb
      (initState [LCMessage.human q]) = res)
    (hlast : res.messages.getLast? = some last) :
    start_chat ab gb sid q t1 store
      = (.ok (mkChatResponse sid last.content res),
         append_message t1 (append_message t1 store sid ⟨"user", q, ""⟩) sid
           ⟨"assistant", last.content, ""⟩) := by
  rw [start_chat_unfold, hres, hlast]

/-- Zeta-reduced unfolding of the `continue_chat` handler. -/
theorem continue_chat_unfold (ab gb : String → Except String String)
    (sid msg : String) (now : Nat) (store : Store) :
    continue_chat ab gb sid msg now store
      = if (get_history now store sid).1.isEmpty = true then
          (.httpError 404 "Session not found", (get_history now store sid).2)
        else
          match (execute_unified_multi_agent_workflow ab gb
              (continueState (get_history now store sid).1 msg)).messages.getLast? with
          | none => (.httpError 500 "No response from multi-agent system",
                     (get_history now store sid).2)
          | some last =>
              (.ok (mkChatResponse sid last.content
                 (execute_unified_multi_agent_workflow ab gb
                   (continueState (get_history now store sid).1 msg))),
               append_message now (append_message now (get_history now store sid).2
                 sid ⟨"user", msg, ""⟩) sid ⟨"assistant", last.content, ""⟩) := rfl

/-- Unfolding of `continue_chat` on an existing non-empty session when the
executed turn and its last message are known. -/
theorem continue_chat_run (ab gb : String → Except String String)
    (sid msg : String) (now : Nat) (store : Store) (e : SessionEntry)
    (res : MultiAgentState) (last : LCMessage)
    (hlk : lookupStore store sid = some e)
    (hne : e.history.isEmpty = false)
    (hres : execute_unified_multi_agent_workflow ab gb
      (continueState e.history msg) = res)
    (hlast : res.messages.getLast? = some last) :
    continue_chat ab gb sid msg now store
      = (.ok (mkChatResponse sid last.content res),
         append_message now (append_message now
           (updateStore store sid ⟨now, e.history⟩) sid ⟨"user", msg, ""⟩) sid
           ⟨"assistant", last.content, ""⟩) := by
  have hgh : get_history now store sid
      = (e.history, updateStore store sid ⟨now, e.history⟩) := by
    simp [get_history, hlk]
  rw [continue_chat_unfold, hgh]
  simp only [hne, Bool.false_eq_true, if_false]
  rw [hres, hlast]

/-- A boundary response that reports an incomplete turn with requirements
still open (a clarification request). -/
def clarificationTurn : ApiResult ChatResponse → Bool
  | .ok r => !r.conversation_complete && !r.metadata.requirements_complete
  | .httpError _ _ => false

theorem clarificationTurn_of_clarify (sid c : String) (s : MultiAgentState)
    (hstep : s.step = "analyze_requirements") (hreq : s.requirements = none) :
    clarificationTurn (ApiResult.ok (mkChatResponse sid c s)) = true := by
  simp [clarificationTurn, mkChatResponse, hstep, hreq]

/-- C1 (amended): because `continue_chat` reconstructs every stored
history entry — assistant turns included — as a `HumanMessage`, the
HumanMessage count seen by the analyst on user turn N is 2N-1, so with a
Requirements backend that never emits a leading completion marker the
forced override fires on user turn 3, not turn 4: turns 1 and 2 end as
clarification requests with requirements not complete, and on turn 3 the
orchestrator overrides the stage judgment, synthesizes a complete
requirements snapshot and routes to the Generating stage. -/
theorem forced_progression_fires_turn_three (ab : String → String)
    (gb : String → Except String String) (sid q m2 m3 : String)
    (t1 t2 t3 : Nat)
    (hab : ∀ s, pyStartswith (ab s) "COMPLETE:" = false) :
    clarificationTurn (start_chat (fun s => Except.ok (ab s)) gb sid q t1 []).1 = true
  ∧ clarificationTurn (continue_chat (fun s => Except.ok (ab s)) gb sid m2 t2
      (start_chat (fun s => Except.ok (ab s)) gb sid q t1 []).2).1 = true
  ∧ (requirements_analyst_node (fun s => Except.ok (ab s))
      (continueState (get_history t3 (continue_chat (fun s => Except.ok (ab s)) gb sid m2 t2
        (start_chat (fun s => Except.ok (ab s)) gb sid q t1 []).2).2 sid).1 m3)).step
      = "generate_workflow"
  ∧ route_next_step (requirements_analyst_node (fun s => Except.ok (ab s))
      (continueState (get_history t3 (continue_chat (fun s => Except.ok (ab s)) gb sid m2 t2
        (start_chat (fun s => Except.ok (ab s)) gb sid q t1 []).2).2 sid).1 m3))
      = "workflow_generator"
  ∧ ∃ r, (requirements_analyst_node (fun s => Except.ok (ab s))
      (continueState (get_history t3 (continue_chat (fun s => Except.ok (ab s)) gb sid m2 t2
        (start_chat (fun s => Except.ok (ab s)) gb sid q t1 []).2).2 sid).1 m3)).requirements
      = some r ∧ r.is_complete = true := by
  -- Turn 1: one HumanMessage, no completion marker: clarification.
  have hcount1 : (([LCMessage.human q]).filter isHuman).length < 4 := by
    simp [isHuman]
  obtain ⟨c1, hs1⟩ : ∃ c, requirements_analyst_node (fun s => Except.ok (ab s))
      (initState [LCMessage.human q])
      = analystClarifyResult (initState [LCMessage.human q]) c :=
    ⟨_, analyst_node_clarifies ab hab (LCMessage.human q) [] hcount1⟩
  have hres1 := exec_of_clarify (fun s => Except.ok (ab s)) gb [LCMessage.human q] c1 hs1
  have hlast1 : (analystClarifyResult (initState [LCMessage.human q])
      c1).messages.getLast? = some (LCMessage.ai c1) := by
    rw [show (analystClarifyResult (initState [LCMessage.human q]) c1).messages
      = [LCMessage.human q] ++ [LCMessage.ai c1] from rfl, List.getLast?_concat]
  have hstart := start_chat_run (fun s => Except.ok (ab s)) gb sid q t1 [] _ _ hres1 hlast1
  simp only [LCMessage.content] at hstart
  have hstore1 : (start_chat (fun s => Except.ok (ab s)) gb sid q t1 []).2
      = [(sid, ⟨t1, [⟨"user", q, ""⟩, ⟨"assistant", c1, ""⟩]⟩)] := by
    rw [hstart]
    show append_message t1 (append_message t1 [] sid ⟨"user", q, ""⟩) sid
      ⟨"assistant", c1, ""⟩ = _
    rw [append_two_fresh (show lookupStore [] sid = none from rfl) t1
      ⟨"user", q, ""⟩ ⟨"assistant", c1, ""⟩]
    rfl
  -- Turn 2: three HumanMessages (history replayed as user turns), still < 4.
  have hlk2 : lookupStore [(sid, (⟨t1, [⟨"user", q, ""⟩, ⟨"assistant", c1, ""⟩]⟩ :
      SessionEntry))] sid = some ⟨t1, [⟨"user", q, ""⟩, ⟨"assistant", c1, ""⟩]⟩ := by
    simp [lookupStore]
  have hcs2 : continueState [⟨"user", q, ""⟩, ⟨"assistant", c1, ""⟩] m2
      = initState [LCMessage.human q, LCMessage.human c1, LCMessage.human m2] := by
    simp [continueState, initState]
  have hcount2 : (([LCMessage.human q, LCMessage.human c1,
      LCMessage.human m2]).filter isHuman).length < 4 := by
    simp [isHuman]
  obtain ⟨c2, hs2⟩ : ∃ c, requirements_analyst_node (fun s => Except.ok (ab s))
      (initState [LCMessage.human q, LCMessage.human c1, LCMessage.human m2])
      = analystClarifyResult (initState [LCMessage.human q, LCMessage.human c1,
          LCMessage.human m2]) c :=
    ⟨_, analyst_node_clarifies ab hab (LCMessage.human q)
      [LCMessage.human c1, LCMessage.human m2] hcount2⟩
  have hres2 := exec_of_clarify (fun s => Except.ok (ab s)) gb
    [LCMessage.human q, LCMessage.human c1, LCMessage.human m2] c2 hs2
  rw [← hcs2] at hres2
  have hlast2 : (analystClarifyResult (initState [LCMessage.human q,
      LCMessage.human c1, LCMessage.human m2]) c2).messages.getLast?
      = some (LCMessage.ai c2) := by
    rw [show (analystClarifyResult (initState [LCMessage.human q, LCMessage.human c1,
        LCMessage.human m2]) c2).messages
      = [LCMessage.human q, LCMessage.human c1, LCMessage.human m2]
          ++ [LCMessage.ai c2] from rfl, List.getLast?_concat]
  have hcont2 := continue_chat_run (fun s => Except.ok (ab s)) gb sid m2 t2
    [(sid, ⟨t1, [⟨"user", q, ""⟩, ⟨"assistant", c1, ""⟩]⟩)]
    ⟨t1, [⟨"user", q, ""⟩, ⟨"assistant", c1, ""⟩]⟩ _ _ hlk2 rfl hres2 hlast2
  simp only [LCMessage.content] at hcont2
  have hstore2 : (continue_chat (fun s => Except.ok (ab s)) gb sid m2 t2
      [(sid, ⟨t1, [⟨"user", q, ""⟩, ⟨"assistant", c1, ""⟩]⟩)]).2
      = [(sid, ⟨t2, [⟨"user", q, ""⟩, ⟨"assistant", c1, ""⟩,
          ⟨"user", m2, ""⟩, ⟨"assistant", c2, ""⟩]⟩)] := by
    rw [hcont2]
    show append_message t2 (append_message t2
      (updateStore [(sid, ⟨t1, [⟨"user", q, ""⟩, ⟨"assistant", c1, ""⟩]⟩)] sid
        ⟨t2, [⟨"user", q, ""⟩, ⟨"assistant", c1, ""⟩]⟩) sid ⟨"user", m2, ""⟩) sid
      ⟨"assistant", c2, ""⟩ = _
    have hupd : updateStore [(sid, ⟨t1, [⟨"user", q, ""⟩, ⟨"assistant", c1, ""⟩]⟩)]
        sid ⟨t2, [⟨"user", q, ""⟩, ⟨"assistant", c1, ""⟩]⟩
        = [(sid, ⟨t2, [⟨"user", q, ""⟩, ⟨"assistant", c1, ""⟩]⟩)] := by
      simp [updateStore]
    rw [hupd]
    rw [append_two_existing (show lookupStore
      [(sid, (⟨t2, [⟨"user", q, ""⟩, ⟨"assistant", c1, ""⟩]⟩ : SessionEntry))] sid
      = some ⟨t2, [⟨"user", q, ""⟩, ⟨"assistant", c1, ""⟩]⟩ by simp [lookupStore]) t2
      ⟨"user", m2, ""⟩ ⟨"assistant", c2, ""⟩]
    simp [updateStore]
  -- Turn 3: five HumanMessages, forced completion.
  have hh3 : (get_history t3 [(sid, (⟨t2, [⟨"user", q, ""⟩, ⟨"assistant", c1, ""⟩,
      ⟨"user", m2, ""⟩, ⟨"assistant", c2, ""⟩]⟩ : SessionEntry))] sid).1
      = [⟨"user", q, ""⟩, ⟨"assistant", c1, ""⟩, ⟨"user", m2, ""⟩,
         ⟨"assistant", c2, ""⟩] := by
    simp [get_history, lookupStore]
  have hcs3 : continueState [⟨"user", q, ""⟩, ⟨"assistant", c1, ""⟩,
      ⟨"user", m2, ""⟩, ⟨"assistant", c2, ""⟩] m3
      = initState [LCMessage.human q, LCMessage.human c1, LCMessage.human m2,
          LCMessage.human c2, LCMessage.human m3] := by
    simp [continueState, initState]
  have hcount3 : (([LCMessage.human q, LCMessage.human c1, LCMessage.human m2,
      LCMessage.human c2, LCMessage.human m3]).filter isHuman).length ≥ 4 := by
    simp [isHuman]
  have hforce := analyst_node_forces ab hab (LCMessage.human q)
    [LCMessage.human c1, LCMessage.human m2, LCMessage.human c2, LCMessage.human m3]
    hcount3
  refine ⟨?_, ?_, ?_, ?_, ?_⟩
  · rw [hstart]
    exact clarificationTurn_of_clarify sid c1 _ rfl rfl
  · rw [hstore1, hcont2]
    exact clarificationTurn_of_clarify sid c2 _ rfl rfl
  · rw [hstore1, hstore2, hh3, hcs3, hforce]
    rfl
  · rw [hstore1, hstore2, hh3, hcs3, hforce]
    simp [route_next_step, analystCompleteResult]
  · rw [hstore1, hstore2, hh3, hcs3, hforce]
    exact ⟨_, rfl, rfl⟩

/-- Analyst backend for the C1 scenario: never emits a completion
marker. -/
def demoAnalystReply : String → String := fun _ => "QUESTIONS: what exactly?"

/-- Generator backend for the C1 scenario: returns a fixed workflow. -/
def demoGb : String → Except String String := fun _ => Except.ok "\x7b \x7d"

/-- Witness for the amended C1 theorem with concrete backends, session id,
messages and times. -/
theorem forced_progression_fires_turn_three_witness :
    clarificationTurn (start_chat (fun s => Except.ok (demoAnalystReply s)) demoGb
      "s" "help" 0 []).1 = true
  ∧ clarificationTurn (continue_chat (fun s => Except.ok (demoAnalystReply s)) demoGb
      "s" "more" 1
      (start_chat (fun s => Except.ok (demoAnalystReply s)) demoGb "s" "help" 0 []).2).1
      = true
  ∧ (requirements_analyst_node (fun s => Except.ok (demoAnalystReply s))
      (continueState (get_history 2 (continue_chat
        (fun s => Except.ok (demoAnalystReply s)) demoGb "s" "more" 1
        (start_chat (fun s => Except.ok (demoAnalystReply s)) demoGb
          "s" "help" 0 []).2).2 "s").1 "again")).step
      = "generate_workflow"
  ∧ route_next_step (requirements_analyst_node (fun s => Except.ok (demoAnalystReply s))
      (continueState (get_history 2 (continue_chat
        (fun s => Except.ok (demoAnalystReply s)) demoGb "s" "more" 1
        (start_chat (fun s => Except.ok (demoAnalystReply s)) demoGb
          "s" "help" 0 []).2).2 "s").1 "again"))
      = "workflow_generator"
  ∧ ∃ r, (requirements_analyst_node (fun s => Except.ok (demoAnalystReply s))
      (continueState (get_history 2 (continue_chat
        (fun s => Except.ok (demoAnalystReply s)) demoGb "s" "more" 1
        (start_chat (fun s => Except.ok (demoAnalystReply s)) demoGb
          "s" "help" 0 []).2).2 "s").1 "again")).requirements
      = some r ∧ r.is_complete = true :=
  forced_progression_fires_turn_three demoAnalystReply demoGb "s" "help" "more"
    "again" 0 1 2 (fun _ => rfl)

/-- Analyst backend for the C1 counterexample as an `Except`-valued
function. -/
def demoAnalystExc : String → Except String String :=
  fun _ => Except.ok "QUESTIONS: what exactly?"

/-- First concrete turn of the C1 counterexample scenario. -/
def demoTurn1 : ApiResult ChatResponse × Store :=
  start_chat demoAnalystExc demoGb "s" "I need help with automation" 0 []

/-- Second concrete turn of the C1 counterexample scenario. -/
def demoTurn2 : ApiResult ChatResponse × Store :=
  continue_chat demoAnalystExc demoGb "s" "more details" 1 demoTurn1.2

/-- Third concrete turn of the C1 counterexample scenario. -/
def demoTurn3 : ApiResult ChatResponse × Store :=
  continue_chat demoAnalystExc demoGb "s" "even more details" 2 demoTurn2.2

/-- C1 counterexample: in a concrete session whose Requirements backend
never emits a completion marker, turns 1 and 2 end as clarification
requests but turn 3 — not turn 4 — already completes with a forced
requirements snapshot and a generated workflow, so the claim that turns 1
through 3 each end as clarification requests (with the override on turn 4)
is false. -/
theorem forced_progression_turn4_counterexample :
    clarificationTurn demoTurn1.1 = true
  ∧ clarificationTurn demoTurn2.1 = true
  ∧ clarificationTurn demoTurn3.1 = false
  ∧ (match demoTurn3.1 with
     | .ok r => r.conversation_complete && r.metadata.requirements_complete
         && r.metadata.workflow_generated
     | .httpError _ _ => false) = true := by
  decide

/-- C10: every store reachable through the boundary API keeps the
transcript-shape invariant — each successful handler call appends exactly
a user entry followed by an assistant entry, so every stored session
history has even length and strictly alternates roles user, assistant,
user, assistant, beginning with user (`StoreAlternates` checks both). -/
theorem reachable_store_wellformed :
    ∀ store : Store, ReachableStore store → StoreAlternates store = true := by
  intro store h
  induction h with
  | empty => rfl
  | start s ab gb sid query now hs hfresh ih =>
      cases hl : (execute_unified_multi_agent_workflow ab gb
          (initState [LCMessage.human query])).messages.getLast? with
      | none =>
          rw [start_chat_unfold, hl]
          exact ih
      | some last =>
          rw [start_chat_unfold, hl]
          show StoreAlternates (append_message now (append_message now s sid
            ⟨"user", query, ""⟩) sid ⟨"assistant", last.content, ""⟩) = true
          rw [append_two_fresh hfresh, storeAlternates_append, ih]
          simp [StoreAlternates, goodEntry, alternates]
  | next s ab gb sid message now hs ih =>
      cases hg : lookupStore s sid with
      | none =>
          have hgh : get_history now s sid = ([], s) := by simp [get_history, hg]
          rw [continue_chat_unfold, hgh]
          exact ih
      | some e =>
          have hgood : goodEntry e = true := goodEntry_of_lookup ih hg
          have halt : alternates e.history = true := by
            have := hgood
            simp only [goodEntry, Bool.and_eq_true] at this
            exact this.1
          have h1 : StoreAlternates (updateStore s sid ⟨now, e.history⟩) = true :=
            storeAlternates_update ih hgood
          have hgh : get_history now s sid
              = (e.history, updateStore s sid ⟨now, e.history⟩) := by
            simp [get_history, hg]
          rw [continue_chat_unfold, hgh]
          by_cases hemp : e.history.isEmpty = true
          · simp only [hemp, if_true]
            exact h1
          · have hemp' : e.history.isEmpty = false := by
              simpa using hemp
            simp only [hemp', Bool.false_eq_true, if_false]
            cases hl : (execute_unified_multi_agent_workflow ab gb
                (continueState e.history message)).messages.getLast? with
            | none => exact h1
            | some last =>
                show StoreAlternates (append_message now (append_message now
                  (updateStore s sid ⟨now, e.history⟩) sid ⟨"user", message, ""⟩)
                  sid ⟨"assistant", last.content, ""⟩) = true
                rw [append_two_existing (lookupStore_update_self hg) now
                  ⟨"user", message, ""⟩ ⟨"assistant", last.content, ""⟩]
                exact storeAlternates_update h1
                  (goodEntry_of_alternates
                    (alternates_append_pair rfl rfl e.history halt))
  | readHistory s sid now hs ih =>
      cases hg : lookupStore s sid with
      | none =>
          have hgh : get_history now s sid = ([], s) := by simp [get_history, hg]
          rw [hgh]
          exact ih
      | some e =>
          have hgood := goodEntry_of_lookup ih hg
          have hgh : get_history now s sid
              = (e.history, updateStore s sid ⟨now, e.history⟩) := by
            simp [get_history, hg]
          rw [hgh]
          exact storeAlternates_update ih hgood
  | cleanup s now hs ih =>
      rw [storeAlternates_iff] at ih ⊢
      intro p hp
      exact ih p (List.mem_of_mem_filter hp)

/-- Witness for the C10 theorem: a concrete reachable store (one
`start_chat` from the empty store) satisfies the invariant. -/
theorem reachable_store_wellformed_witness :
    StoreAlternates (start_chat demoAnalystExc demoGb "w" "hello" 0 []).2 = true :=
  reachable_store_wellformed _
    (ReachableStore.start [] demoAnalystExc demoGb "w" "hello" 0
      ReachableStore.empty rfl)

/-- Analyst backend that immediately emits a completion marker, for the C2
witness. -/
def demoCompleteAb : String → Except String String :=
  fun _ => Except.ok "COMPLETE: build the workflow"

/-- Witness for the C2 theorem on a concrete straight-to-generation turn:
the artifact is produced, so no error is set, and the analyst handed over
a complete requirements snapshot. -/
theorem turn_completion_invariant_witness :
    (execute_unified_multi_agent_workflow demoCompleteAb demoGb
      (initState [LCMessage.human "hi"])).error_message = none
  ∧ ∃ r, (requirements_analyst_node demoCompleteAb
      (initState [LCMessage.human "hi"])).requirements = some r
        ∧ r.is_complete = true := by
  have h := turn_completion_invariant demoCompleteAb demoGb [LCMessage.human "hi"]
  exact ⟨h.2.1 (by decide), h.2.2 (by decide)⟩

end Axiom8
